import Mathlib

/-!
Shallow embedding of the hire-ai-backend skill-matching, resume-parsing and
talent-search services, together with proofs settling the frozen claims.

Modelling conventions:
* JavaScript strings are `List Char` (`Str`); `String.prototype.includes` is
  substring containment (`List.isInfixOf`), `toLowerCase` is a character-wise
  `Char.toLower` (the repository only compares ASCII skill tokens).
* JavaScript numbers are modelled as `ℚ`; `Math.round` is `jsRound`
  (round half towards positive infinity), `Math.min`/`Math.max` are
  `min`/`max`.
* Fallible operations (a `TypeError`, a failed `JSON.parse`, a rejected
  oracle call) are modelled with `Option`/`Except`.
* `new Date(s)` (a platform builtin, not repository code) is an abstract
  parameter `parseDate : Str → Option JsDate`; failure models `isNaN(getTime())`.
-/

abbrev Str : Type := List Char

def str (s : String) : Str := s.toList

/-- Source `s.toLowerCase()` modelled character-wise. -/
def toLower (s : Str) : Str := s.map Char.toLower

/-- Source `s.includes(t)` : `t` occurs as a contiguous substring of `s`. -/
def jsIncludes (s t : Str) : Bool := decide (t <:+: s)

/-- Source `Math.round`: rounds half towards positive infinity, like JavaScript. -/
def jsRound (q : ℚ) : ℤ := ⌊q + 1 / 2⌋

/-- JavaScript truthiness of a string value: the empty string is falsy. -/
def jsTruthyStr (s : Str) : Bool := !s.isEmpty

/-- JavaScript truthiness of a number value: `0` is falsy (`NaN` not modelled). -/
def jsTruthyNum (q : ℚ) : Bool := q != 0

/-- Source `[...new Set(l)]`: deduplicate keeping the first occurrence, in order. -/
def jsSetDedup (l : List Str) : List Str :=
  l.foldl (fun acc x => if x ∈ acc then acc else acc ++ [x]) []

namespace SkillMatching

/-- Source `ParsedResume["skills"]` from `src/types/resume.ts`. -/
structure SkillSet where
  technical : List Str
  frameworks : List Str
  languages : List Str
  tools : List Str
  databases : List Str
  cloud : List Str
deriving DecidableEq

/-- Source `WorkExperience` from `src/types/resume.ts`. -/
structure WorkExperience where
  company : Str
  position : Str
  location : Str
  startDate : Str
  endDate : Str
  current : Bool
  description : List Str
  technologies : List Str
deriving DecidableEq

/-- The result of `new Date(s)` when the date parses: calendar year and the
JavaScript month index (`getFullYear()` / `getMonth()`). -/
structure JsDate where
  year : ℤ
  month : ℤ

inductive Seniority where
  | junior | mid | senior | lead | principal
deriving DecidableEq, Repr

/-- Source `SkillMatchingService.skillCategories` (category name, skill list), in
object-literal order. -/
def skillCategories : List (Str × List Str) :=
  [ (str "frontend",
     [str "react", str "vue", str "angular", str "javascript", str "typescript",
      str "html", str "css", str "sass", str "scss", str "redux", str "vuex",
      str "next.js", str "nuxt.js", str "svelte", str "webpack", str "vite",
      str "tailwind"]),
    (str "backend",
     [str "node.js", str "express", str "fastify", str "python", str "django",
      str "flask", str "java", str "spring", str "c#", str ".net", str "php",
      str "laravel", str "ruby", str "rails", str "go", str "rust",
      str "kotlin"]),
    (str "database",
     [str "mysql", str "postgresql", str "mongodb", str "redis",
      str "elasticsearch", str "sqlite", str "oracle", str "sql server",
      str "cassandra", str "dynamodb", str "firebase", str "supabase"]),
    (str "cloud",
     [str "aws", str "azure", str "gcp", str "docker", str "kubernetes",
      str "terraform", str "jenkins", str "gitlab ci", str "github actions",
      str "circleci", str "heroku", str "vercel", str "netlify"]),
    (str "ai_ml",
     [str "tensorflow", str "pytorch", str "scikit-learn", str "pandas",
      str "numpy", str "keras", str "opencv", str "langchain", str "openai",
      str "hugging face", str "transformers", str "machine learning",
      str "deep learning", str "natural language processing",
      str "computer vision", str "data science"]),
    (str "mobile",
     [str "react native", str "flutter", str "swift", str "kotlin",
      str "ionic", str "xamarin", str "cordova"]) ]

/-- Source `SkillMatchingService.extractSkillsFromJobDescription`. -/
def extractSkillsFromJobDescription (jobDescription : Str) : List Str :=
  let description := toLower jobDescription
  let foundSkills :=
    (skillCategories.map Prod.snd).flatten.filter
      (fun skill => jsIncludes description (toLower skill))
  jsSetDedup foundSkills

/-- The `similarityMap` literal inside `calculateSkillSimilarity`. -/
def similarityMap : List (Str × List Str) :=
  [ (str "javascript", [str "js", str "node.js", str "typescript", str "ts"]),
    (str "python", [str "py", str "django", str "flask"]),
    (str "java", [str "spring", str "kotlin"]),
    (str "react", [str "react.js", str "reactjs", str "next.js"]),
    (str "vue", [str "vue.js", str "vuejs", str "nuxt.js"]),
    (str "angular", [str "angularjs"]),
    (str "aws", [str "amazon web services", str "ec2", str "s3"]),
    (str "docker", [str "containers", str "containerization"]),
    (str "kubernetes", [str "k8s", str "orchestration"]) ]

/-- Source `SkillMatchingService.calculateSkillSimilarity`. -/
def calculateSkillSimilarity (candidateSkill requiredSkill : Str) : ℚ :=
  let candidate := toLower candidateSkill
  let required := toLower requiredSkill
  if candidate = required then 100
  else if jsIncludes candidate required || jsIncludes required candidate then 80
  else if similarityMap.any (fun kv =>
      (candidate = kv.1 && kv.2.contains required) ||
      (required = kv.1 && kv.2.contains candidate)) then 70
  else 0

/-- Source `SkillMatchingService.determineSeniority`. -/
def determineSeniority (years : ℚ) (experiences : List WorkExperience) :
    Seniority :=
  let hasLeadership := experiences.any (fun exp =>
    jsIncludes (toLower exp.position) (str "lead") ||
    jsIncludes (toLower exp.position) (str "manager") ||
    jsIncludes (toLower exp.position) (str "principal") ||
    exp.description.any (fun desc =>
      jsIncludes (toLower desc) (str "team") ||
      jsIncludes (toLower desc) (str "mentor")))
  if 8 ≤ years ∧ hasLeadership then .principal
  else if 6 ≤ years ∧ hasLeadership then .lead
  else if 4 ≤ years then .senior
  else if 2 ≤ years then .mid
  else .junior

/-- Source `SkillMatchingService.calculateExperienceYears`.  `parseDate` models the
`new Date(string)` builtin (`none` = invalid date), `now` models `new Date()`. -/
def calculateExperienceYears (parseDate : Str → Option JsDate) (now : JsDate)
    (experiences : List WorkExperience) : ℚ :=
  if experiences.length = 0 then 0
  else
    let totalMonths : ℤ := experiences.foldl (fun totalMonths exp =>
      let startDate := parseDate exp.startDate
      let endDate := if exp.current then some now else parseDate exp.endDate
      match startDate, endDate with
      | some s, some e =>
          let months := (e.year - s.year) * 12 + (e.month - s.month)
          totalMonths + max 0 months
      | _, _ => totalMonths) 0
    (jsRound ((totalMonths : ℚ) / 12 * 10) : ℚ) / 10

/-- Source `category.charAt(0).toUpperCase() + category.slice(1)`. -/
def capitalizeFirst : Str → Str
  | [] => []
  | c :: rest => Char.toUpper c :: rest

/-- Source `SkillMatchingService.inferSkillLevel`. -/
def inferSkillLevel (skill : Str) (resumeSkills : SkillSet) : Str :=
  let skillLower := toLower skill
  let appearances : ℕ :=
    (if resumeSkills.technical.any (fun s => jsIncludes (toLower s) skillLower)
     then 1 else 0) +
    (if resumeSkills.frameworks.any (fun s => jsIncludes (toLower s) skillLower)
     then 1 else 0) +
    (if resumeSkills.tools.any (fun s => jsIncludes (toLower s) skillLower)
     then 1 else 0)
  if 2 ≤ appearances then str "Advanced"
  else if appearances = 1 then str "Intermediate"
  else str "Beginner"

/-- Source `SkillMatchingService.inferRequiredLevel`. -/
def inferRequiredLevel (_skill : Str) : Str := str "Required"

/-- The `alternativeMap` literal inside `findSkillAlternatives`. -/
def alternativeMap : List (Str × List Str) :=
  [ (str "react", [str "vue", str "angular", str "svelte"]),
    (str "vue", [str "react", str "angular"]),
    (str "angular", [str "react", str "vue"]),
    (str "mysql", [str "postgresql", str "mongodb"]),
    (str "postgresql", [str "mysql", str "mongodb"]),
    (str "aws", [str "azure", str "gcp"]),
    (str "azure", [str "aws", str "gcp"]),
    (str "docker", [str "podman"]),
    (str "kubernetes", [str "docker swarm"]) ]

/-- Source `SkillMatchingService.findSkillAlternatives`. -/
def findSkillAlternatives (missingSkill : Str) (candidateSkills : List Str) :
    List Str :=
  let missing := toLower missingSkill
  let alternatives :=
    match alternativeMap.find? (fun kv => kv.1 = missing) with
    | some kv =>
        kv.2.filter (fun alt =>
          candidateSkills.any (fun skill => jsIncludes (toLower skill) alt))
    | none => []
  alternatives.take 3

/-- Source `SkillMatchingService.determineSkillImportance`. -/
def determineSkillImportance (skill : Str) : Str :=
  let criticalSkills := [str "javascript", str "python", str "java",
    str "react", str "node.js", str "sql"]
  let important := [str "docker", str "aws", str "git", str "api",
    str "database"]
  let skillLower := toLower skill
  if criticalSkills.any (fun critical => jsIncludes skillLower critical) then
    str "Critical"
  else if important.any (fun imp => jsIncludes skillLower imp) then
    str "Important"
  else str "Nice to have"

/-- One record of `matchedSkills`; the source field `match` is a Lean keyword
and is embedded as `matchVal`. -/
structure MatchedSkill where
  skill : Str
  required : Bool
  candidateLevel : Str
  requiredLevel : Str
  matchVal : ℚ
deriving DecidableEq

structure MissingSkill where
  skill : Str
  importance : Str
  alternatives : List Str

structure CategoryCount where
  matched : ℕ
  total : ℕ

structure FitScore where
  technical : ℚ
  experience : ℚ
  overall : ℚ

/-- The record returned by `calculateSkillMatch`. -/
structure MatchResult where
  overallMatch : ℚ
  matchedSkills : List MatchedSkill
  missingSkills : List MissingSkill
  strengthAreas : List Str
  improvementAreas : List Str
  recommendations : List Str
  fitScore : FitScore
  matchPercentage : ℚ
  categoryBreakdown : List (Str × CategoryCount)

/-- Source `SkillMatchingService.getCategoryBreakdown`; the JS `Record` keeps
insertion order, modelled as an association list over the category order. -/
def getCategoryBreakdown (matchedSkills requiredSkills : List Str) :
    List (Str × CategoryCount) :=
  skillCategories.filterMap (fun cat =>
    let categoryRequired := requiredSkills.filter (fun skill =>
      cat.2.any (fun catSkill =>
        jsIncludes skill catSkill || jsIncludes catSkill skill))
    let categoryMatched := matchedSkills.filter (fun skill =>
      cat.2.any (fun catSkill =>
        jsIncludes skill catSkill || jsIncludes catSkill skill))
    if 0 < categoryRequired.length then
      some (cat.1, ⟨categoryMatched.length, categoryRequired.length⟩)
    else none)

/-- Source `SkillMatchingService.identifyStrengthAreas` (`matchedSkills` is unused by
the source as well). -/
def identifyStrengthAreas (resumeSkills : SkillSet)
    (_matchedSkills : List MatchedSkill) : List Str :=
  let strengths := skillCategories.filterMap (fun cat =>
    let userSkillsInCategory :=
      (resumeSkills.technical ++ resumeSkills.frameworks ++
        resumeSkills.tools).filter (fun skill =>
        cat.2.any (fun catSkill =>
          jsIncludes (toLower skill) catSkill ||
          jsIncludes catSkill (toLower skill)))
    if 3 ≤ userSkillsInCategory.length then some (capitalizeFirst cat.1)
    else none)
  strengths.take 3

/-- Source `SkillMatchingService.identifyImprovementAreas`. -/
def identifyImprovementAreas (missingSkills : List MissingSkill)
    (categoryBreakdown : List (Str × CategoryCount)) : List Str :=
  let improvements := categoryBreakdown.filterMap (fun cat =>
    let matchRate : ℚ := (cat.2.matched : ℚ) / (cat.2.total : ℚ)
    if matchRate < 1 / 2 ∧ 2 ≤ cat.2.total then
      some (capitalizeFirst cat.1)
    else none)
  let improvements := missingSkills.foldl (fun improvements missing =>
    if missing.importance = str "Critical" ∧ improvements.length < 5 then
      improvements ++ [str "Learn " ++ missing.skill]
    else improvements) improvements
  improvements.take 5

/-- Source `SkillMatchingService.generateRecommendations`. -/
def generateRecommendations (missingSkills : List MissingSkill)
    (strengthAreas : List Str) (resumeSkills : SkillSet) : List Str :=
  let criticalMissing := missingSkills.filter
    (fun skill => skill.importance = str "Critical")
  let recommendations : List Str :=
    match criticalMissing with
    | first :: _ =>
        [str "Focus on learning " ++ first.skill ++
          str " as it\x27s critical for this role"]
    | [] => []
  let recommendations :=
    match strengthAreas with
    | first :: _ =>
        recommendations ++
          [str "Leverage your " ++ toLower first ++
            str " expertise to stand out"]
    | [] => recommendations
  let allSkills := (resumeSkills.technical ++ resumeSkills.frameworks ++
    resumeSkills.tools).map toLower
  let recommendations :=
    if allSkills.any (fun skill => jsIncludes skill (str "react")) then
      recommendations ++
        [str "Consider learning Next.js to enhance your React skills"]
    else recommendations
  let recommendations :=
    if allSkills.any (fun skill => jsIncludes skill (str "javascript")) then
      recommendations ++
        [str "TypeScript would be a valuable addition to your JavaScript skills"]
    else recommendations
  recommendations.take 4

/-- Source `SkillMatchingService.calculateTechnicalFit`; the source reads
`skill.match || 0`, which is the identity on the numeric `match` field
(`0 || 0` is `0`). -/
def calculateTechnicalFit (matchedSkills : List MatchedSkill)
    (requiredSkills : List Str) : ℚ :=
  if requiredSkills.length = 0 then 100
  else
    let weightedScore :=
      matchedSkills.foldl (fun total skill => total + skill.matchVal) 0
    min 100 (weightedScore / (requiredSkills.length : ℚ))

/-- Source `SkillMatchingService.calculateExperienceFit`. -/
def calculateExperienceFit (resumeSkills : SkillSet) : ℚ :=
  let totalSkills : ℕ := (resumeSkills.technical ++ resumeSkills.frameworks ++
    resumeSkills.tools ++ resumeSkills.databases).length
  if 15 ≤ totalSkills then 100
  else if 10 ≤ totalSkills then 80
  else if 5 ≤ totalSkills then 60
  else max 20 ((totalSkills : ℚ) * 10)

/-- Source `SkillMatchingService.calculateSkillMatch` (the `requiredSkills.forEach`
loop pushing onto `matchedSkills` and `missingSkills` is rendered as two
`filterMap` passes over the same list; the pushes are independent). -/
def calculateSkillMatch (resumeSkills : SkillSet) (jobDescription : Str) :
    MatchResult :=
  let requiredSkills := extractSkillsFromJobDescription jobDescription
  let allResumeSkills :=
    (resumeSkills.technical ++ resumeSkills.frameworks ++
      resumeSkills.languages ++ resumeSkills.tools ++
      resumeSkills.databases ++ resumeSkills.cloud).map toLower
  let matchedSkills : List MatchedSkill :=
    requiredSkills.filterMap (fun required =>
      let originalRequired :=
        requiredSkills.getD (requiredSkills.indexOf required) []
      match allResumeSkills.find? (fun resume =>
          jsIncludes resume required || jsIncludes required resume) with
      | some matchedResumeSkill =>
          some { skill := originalRequired
                 required := true
                 candidateLevel := inferSkillLevel matchedResumeSkill resumeSkills
                 requiredLevel := inferRequiredLevel required
                 matchVal := calculateSkillSimilarity matchedResumeSkill required }
      | none => none)
  let missingSkills : List MissingSkill :=
    requiredSkills.filterMap (fun required =>
      let originalRequired :=
        requiredSkills.getD (requiredSkills.indexOf required) []
      match allResumeSkills.find? (fun resume =>
          jsIncludes resume required || jsIncludes required resume) with
      | some _ => none
      | none =>
          some { skill := originalRequired
                 importance := determineSkillImportance required
                 alternatives := findSkillAlternatives required allResumeSkills })
  let matchPercentage : ℚ :=
    if 0 < requiredSkills.length then
      ((matchedSkills.length : ℚ) / (requiredSkills.length : ℚ)) * 100
    else 0
  let categoryBreakdown :=
    getCategoryBreakdown (matchedSkills.map (fun s => toLower s.skill))
      requiredSkills
  let strengthAreas := identifyStrengthAreas resumeSkills matchedSkills
  let improvementAreas := identifyImprovementAreas missingSkills categoryBreakdown
  let recommendations :=
    generateRecommendations missingSkills strengthAreas resumeSkills
  let technicalFit := calculateTechnicalFit matchedSkills requiredSkills
  let experienceFit := calculateExperienceFit resumeSkills
  let overallFit := (technicalFit + experienceFit) / 2
  { overallMatch := (jsRound matchPercentage : ℚ)
    matchedSkills := matchedSkills
    missingSkills := missingSkills
    strengthAreas := strengthAreas
    improvementAreas := improvementAreas
    recommendations := recommendations
    fitScore := { technical := (jsRound technicalFit : ℚ)
                  experience := (jsRound experienceFit : ℚ)
                  overall := (jsRound overallFit : ℚ) }
    matchPercentage := (jsRound matchPercentage : ℚ)
    categoryBreakdown := categoryBreakdown }

/-- The runtime value actually handed to `calculateSkillMatch` by its callers:
`analyzeSkillMatchFromFile` (one controller version) and
`test/resumeParserTest.ts` pass an array of requirement strings, the other
controller version passes a free-text job description string. -/
inductive RequirementInput where
  | text (jobDescription : Str)
  | array (requiredSkills : List Str)

/-- Source `calculateSkillMatch` under JavaScript dynamic semantics.  On an array
argument, `extractSkillsFromJobDescription` evaluates
`jobDescription.toLowerCase()`; arrays have no `toLowerCase` method, so a
`TypeError` is thrown (modelled as `none`). -/
def calculateSkillMatchDyn (resumeSkills : SkillSet) :
    RequirementInput → Option MatchResult
  | .text jobDescription => some (calculateSkillMatch resumeSkills jobDescription)
  | .array _ => none

end SkillMatching

namespace ResumeParser

open SkillMatching (SkillSet WorkExperience)

/-- ASCII whitespace recognised by the JavaScript `\s` class and
`String.prototype.trim` (the Unicode space classes are not used by this
repository's data). -/
def isJsWhitespace (c : Char) : Bool :=
  c = ' ' || c = '\t' || c = '\n' || c = '\r' ||
  c = Char.ofNat 11 || c = Char.ofNat 12

/-- Source `s.trim()`. -/
def trim (s : Str) : Str :=
  ((s.dropWhile isJsWhitespace).reverse.dropWhile isJsWhitespace).reverse

/-- Source `ResumeParserService.stripMarkdownCodeBlocks`: applies the
anchored `codeBlockPattern` regex (an opening three-backtick fence with an
optional `json` tag, a greedy whitespace run, a lazily matched group, an
optional newline, then a closing three-backtick fence at the very end) to
the trimmed response, and returns the trimmed group on a match, else the
trimmed response.  The greedy whitespace run subsumes the optional newline
that follows it; the lazy group together with the end anchor makes the
closing fence exactly the final three characters, with one optional newline
just before it belonging to the pattern, not the group. -/
def stripMarkdownCodeBlocks (response : Str) : Str :=
  let t := trim response
  if (str "```").isPrefixOf t then
    let afterFence := t.drop 3
    let afterLang :=
      if (str "json").isPrefixOf afterFence then afterFence.drop 4
      else afterFence
    let afterWs := afterLang.dropWhile isJsWhitespace
    if (str "```").isSuffixOf afterWs then
      let core := afterWs.take (afterWs.length - 3)
      let grp := if core.getLast? = some '\n' then core.dropLast else core
      trim grp
    else t
  else t

structure PersonalInfo where
  name : Str
  email : Str
  phone : Str
  location : Str
  linkedin : Option Str
  github : Option Str
  portfolio : Option Str
deriving DecidableEq

structure Education where
  institution : Str
  degree : Str
  field : Str
  location : Str
  startDate : Str
  endDate : Str
  gpa : Option Str
  achievements : List Str
deriving DecidableEq

structure Project where
  name : Str
  description : Str
  technologies : List Str
  duration : Str
  url : Option Str
  github : Option Str
  highlights : List Str
deriving DecidableEq

structure Certification where
  name : Str
  issuer : Str
  date : Str
  expiryDate : Option Str
  credentialId : Option Str
  url : Option Str
deriving DecidableEq

/-- Source `Omit<ParsedResume, "extractedText" | "confidence">`: the document shape
produced by `parseResumeWithAI`. -/
structure ParsedResumeData where
  personalInfo : PersonalInfo
  summary : Str
  skills : SkillSet
  experience : List WorkExperience
  education : List Education
  projects : List Project
  certifications : List Certification
deriving DecidableEq

/-- The fallback literal returned by `parseResumeWithAI` on any failure:
every field empty. -/
def emptyParsedResume : ParsedResumeData :=
  { personalInfo :=
      { name := [], email := [], phone := [], location := []
        linkedin := none, github := none, portfolio := none }
    summary := []
    skills := { technical := [], frameworks := [], languages := []
                tools := [], databases := [], cloud := [] }
    experience := []
    education := []
    projects := []
    certifications := [] }

/-- Source `ResumeParserService.parseResumeWithAI`.  The oracle call
(`groqService.parseResumeContent`) either throws (`Except.error`) or returns
a response string; `JSON.parse` is the abstract `jsonParse` (`none` models a
thrown `SyntaxError`).  Both failures are caught and replaced by
`emptyParsedResume`. -/
def parseResumeWithAI (jsonParse : Str → Option ParsedResumeData)
    (response : Except Unit Str) : ParsedResumeData :=
  match response with
  | .error _ => emptyParsedResume
  | .ok r =>
      match jsonParse (stripMarkdownCodeBlocks r) with
      | some parsed => parsed
      | none => emptyParsedResume

/-- Source `ResumeParserService.calculateConfidence` (the `text` parameter is
unused by the source as well; the sequence of conditional `score +=`
statements is rendered as one sum of conditional terms, in statement
order). -/
def calculateConfidence (parsedData : ParsedResumeData) (_text : Str) : ℚ :=
  let totalSkills : ℕ :=
    (parsedData.skills.technical ++ parsedData.skills.frameworks ++
      parsedData.skills.languages ++ parsedData.skills.tools ++
      parsedData.skills.databases ++ parsedData.skills.cloud).length
  let score : ℚ :=
    (if jsTruthyStr parsedData.personalInfo.name then 5 else 0) +
    (if jsTruthyStr parsedData.personalInfo.email then 5 else 0) +
    (if jsTruthyStr parsedData.personalInfo.phone then 5 else 0) +
    (if jsTruthyStr parsedData.personalInfo.location then 5 else 0) +
    min 25 ((totalSkills : ℚ) * 2) +
    (if 0 < parsedData.experience.length then
      15 +
        (if parsedData.experience.any (fun exp => 0 < exp.description.length)
         then 10 else 0)
     else 0) +
    (if 0 < parsedData.education.length then
      10 +
        (if parsedData.education.any (fun edu =>
            jsTruthyStr edu.degree && jsTruthyStr edu.institution)
         then 5 else 0)
     else 0) +
    (if 0 < parsedData.projects.length then 10 else 0) +
    (if jsTruthyStr parsedData.summary ∧ 50 < parsedData.summary.length then 5
     else 0)
  min 1 (score / 100)

end ResumeParser

namespace TalentSearch

inductive Availability where
  | immediate | notice | open_
deriving DecidableEq, Repr

inductive ProfileSource where
  | linkedin | github | portfolio | resume
deriving DecidableEq, Repr

inductive EmploymentType where
  | fullTime | contract | partTime
deriving DecidableEq, Repr

structure AIProject where
  name : Str
  description : Str
  technologies : List Str
  impact : Str
  year : ℚ

structure AIExperience where
  years : ℚ
  frameworks : List Str
  domains : List Str
  projects : List AIProject

structure EmploymentPreferences where
  type : EmploymentType
  remote : Bool
  relocation : Bool

structure ScreeningStatus where
  automated : Bool
  score : ℚ
  notes : List Str
  recommended : Bool

/-- Source `TalentProfile` in the earlier revision of `src/types/talent.ts`
(every sub-record required), the shape used by the earlier revision of
`TalentSearchService.calculateMatchScore`. -/
structure TalentProfileV1 where
  id : Str
  name : Str
  title : Str
  experience : ℚ
  skills : List Str
  location : Str
  availability : Availability
  source : ProfileSource
  matchScore : ℚ
  highlights : List Str
  aiExperience : AIExperience
  employmentPreferences : EmploymentPreferences
  seniority : SkillMatching.Seniority
  screeningStatus : ScreeningStatus

/-- Source `TalentProfile` in the current `src/types/talent.ts`
(`aiExperience`, `employmentPreferences`, `seniority`, `screeningStatus`
are optional). -/
structure TalentProfile where
  id : Str
  name : Str
  title : Str
  experience : ℚ
  skills : List Str
  location : Str
  availability : Availability
  source : ProfileSource
  matchScore : ℚ
  highlights : List Str
  avatar : Str
  summary : Str
  aiExperience : Option AIExperience
  employmentPreferences : Option EmploymentPreferences
  seniority : Option SkillMatching.Seniority
  screeningStatus : Option ScreeningStatus

/-- Filters sub-record of `aiExperience` inside the derived filters. -/
structure AIExperienceFilter where
  frameworks : Option (List Str)
  domains : Option (List Str)
  years : Option ℚ

/-- The `derivedFilters` object produced by
`processNaturalLanguageQuery`; every field optional. -/
structure DerivedFilters where
  experience : Option ℚ
  skills : Option (List Str)
  location : Option Str
  availability : Option Availability
  employmentType : Option EmploymentType
  seniority : Option SkillMatching.Seniority
  aiExperience : Option AIExperienceFilter

/-- Source `locationMap` literal; it occurs verbatim inside each match-score
function (and `calculateLocationScore`). -/
def locationMap : List (Str × List Str) :=
  [ (str "bangalore", [str "bangalore", str "bengaluru", str "bangaluru"]),
    (str "mumbai", [str "mumbai", str "bombay"]),
    (str "delhi", [str "delhi", str "new delhi", str "ncr"]),
    (str "hyderabad", [str "hyderabad", str "secunderabad"]),
    (str "chennai", [str "chennai", str "madras"]),
    (str "pune", [str "pune", str "puna"]) ]

end TalentSearch

namespace TalentSearchV1

open TalentSearch

/-- Source `TalentSearchService.calculateMatchScore` (earlier revision,
`aiExperience` accessed directly).  Sequential `score +=` statements are
rendered as shadowing `let` bindings; the `if (derivedFilters?.experience)`
and `if (derivedFilters?.location)` guards are JavaScript truthiness tests
(`0` and the empty string are falsy), and in the `score === 0` branch the
conditional `+= 20` additions start from zero, so they are rendered as a
sum of conditionals. -/
def calculateMatchScore (profile : TalentProfileV1)
    (extractedSkills extractedRequirements : List Str)
    (derivedFilters : DerivedFilters) : ℚ :=
  let score : ℚ := 0
  let score :=
    if 0 < extractedSkills.length then
      let skillMatches := extractedSkills.filter (fun skill =>
        profile.skills.any (fun pSkill =>
          jsIncludes (toLower pSkill) (toLower skill)))
      score + ((skillMatches.length : ℚ) / (extractedSkills.length : ℚ)) * 40
    else score
  let score :=
    if 0 < extractedRequirements.length then
      let requirementMatches := extractedRequirements.filter (fun req =>
        let reqLower := toLower req
        jsIncludes (toLower profile.title) reqLower ||
        profile.highlights.any (fun h => jsIncludes (toLower h) reqLower) ||
        profile.aiExperience.domains.any (fun d =>
          jsIncludes (toLower d) reqLower) ||
        profile.aiExperience.frameworks.any (fun f =>
          jsIncludes (toLower f) reqLower))
      score +
        ((requirementMatches.length : ℚ) / (extractedRequirements.length : ℚ))
          * 30
    else score
  let score :=
    match derivedFilters.experience with
    | some fe =>
        if jsTruthyNum fe then
          let experienceDiff := |profile.experience - fe|
          if experienceDiff ≤ 2 then score + 20
          else if experienceDiff ≤ 4 then score + 15
          else if experienceDiff ≤ 6 then score + 10
          else if fe * (7 / 10) ≤ profile.experience then score + 5
          else score
        else score
    | none => score
  let score :=
    match derivedFilters.location with
    | some loc =>
        if jsTruthyStr loc then
          let profileLocation := toLower profile.location
          let searchLocation := toLower loc
          if profileLocation = searchLocation then score + 10
          else if locationMap.any (fun kv =>
              kv.2.contains searchLocation && kv.2.contains profileLocation)
          then score + 10
          else score
        else score
    | none => score
  let score :=
    if score = 0 then
      (if 0 < profile.skills.length then (20 : ℚ) else 0) +
      (if 0 < profile.highlights.length then 20 else 0) +
      (if 0 < profile.aiExperience.frameworks.length then 20 else 0) +
      (if 0 < profile.aiExperience.domains.length then 20 else 0) +
      (if 0 < profile.experience then 20 else 0)
    else score
  min 1 (max 0 (score / 100))

end TalentSearchV1

namespace TalentSearchV2

open TalentSearch

/-- Source `TalentSearchService.calculateMatchScore` (current revision, file
lines 324-419): like the earlier revision but over the optional
`aiExperience` (`profile.aiExperience?.domains.some(...) ?? false`). -/
def calculateMatchScore (profile : TalentProfile)
    (extractedSkills extractedRequirements : List Str)
    (derivedFilters : DerivedFilters) : ℚ :=
  let score : ℚ := 0
  let score :=
    if 0 < extractedSkills.length then
      let skillMatches := extractedSkills.filter (fun skill =>
        profile.skills.any (fun pSkill =>
          jsIncludes (toLower pSkill) (toLower skill)))
      score + ((skillMatches.length : ℚ) / (extractedSkills.length : ℚ)) * 40
    else score
  let score :=
    if 0 < extractedRequirements.length then
      let requirementMatches := extractedRequirements.filter (fun req =>
        let reqLower := toLower req
        jsIncludes (toLower profile.title) reqLower ||
        profile.highlights.any (fun h => jsIncludes (toLower h) reqLower) ||
        (match profile.aiExperience with
         | some ai => ai.domains.any (fun d => jsIncludes (toLower d) reqLower)
         | none => false) ||
        (match profile.aiExperience with
         | some ai => ai.frameworks.any (fun f => jsIncludes (toLower f) reqLower)
         | none => false))
      score +
        ((requirementMatches.length : ℚ) / (extractedRequirements.length : ℚ))
          * 30
    else score
  let score :=
    match derivedFilters.experience with
    | some fe =>
        if jsTruthyNum fe then
          let experienceDiff := |profile.experience - fe|
          if experienceDiff ≤ 2 then score + 20
          else if experienceDiff ≤ 4 then score + 15
          else if experienceDiff ≤ 6 then score + 10
          else if fe * (7 / 10) ≤ profile.experience then score + 5
          else score
        else score
    | none => score
  let score :=
    match derivedFilters.location with
    | some loc =>
        if jsTruthyStr loc then
          let profileLocation := toLower profile.location
          let searchLocation := toLower loc
          if profileLocation = searchLocation then score + 10
          else if locationMap.any (fun kv =>
              kv.2.contains searchLocation && kv.2.contains profileLocation)
          then score + 10
          else score
        else score
    | none => score
  let score :=
    if score = 0 then
      (if 0 < profile.skills.length then (20 : ℚ) else 0) +
      (if 0 < profile.highlights.length then 20 else 0) +
      (if 0 < (match profile.aiExperience with
               | some ai => ai.frameworks.length
               | none => 0) then 20 else 0) +
      (if 0 < (match profile.aiExperience with
               | some ai => ai.domains.length
               | none => 0) then 20 else 0) +
      (if 0 < profile.experience then 20 else 0)
    else score
  min 1 (max 0 (score / 100))

/-- Source `TalentSearchService.calculateLocationScore`. -/
def calculateLocationScore (profileLocation searchLocation : Str) : ℚ :=
  let profileLocationLower := toLower profileLocation
  let searchLocationLower := toLower searchLocation
  if profileLocationLower = searchLocationLower then 10
  else if locationMap.any (fun kv =>
      kv.2.contains searchLocationLower && kv.2.contains profileLocationLower)
  then 10
  else 0

/-- Source `TalentSearchService.calculateBaseQualityScore`. -/
def calculateBaseQualityScore (profile : TalentProfile) : ℚ :=
  let score : ℚ := 0
  let score := if 0 < profile.skills.length then score + 20 else score
  let score := if 0 < profile.highlights.length then score + 20 else score
  let score := if 0 < (match profile.aiExperience with
                       | some ai => ai.frameworks.length
                       | none => 0) then score + 20 else score
  let score := if 0 < (match profile.aiExperience with
                       | some ai => ai.domains.length
                       | none => 0) then score + 20 else score
  let score := if 0 < profile.experience then score + 20 else score
  score

/-- Source `TalentSearchService.calculateMatchScoreOptimized`: pre-lowercases
the profile fields (`profile.aiExperience?.domains.map(...) || []`), then
applies the same scoring, delegating the location and base-quality terms to
`calculateLocationScore` and `calculateBaseQualityScore`. -/
def calculateMatchScoreOptimized (profile : TalentProfile)
    (extractedSkills extractedRequirements : List Str)
    (derivedFilters : DerivedFilters) : ℚ :=
  let score : ℚ := 0
  let profileSkillsLower := profile.skills.map toLower
  let profileHighlightsLower := profile.highlights.map toLower
  let profileTitleLower := toLower profile.title
  let profileAIDomains :=
    match profile.aiExperience with
    | some ai => ai.domains.map toLower
    | none => []
  let profileAIFrameworks :=
    match profile.aiExperience with
    | some ai => ai.frameworks.map toLower
    | none => []
  let score :=
    if 0 < extractedSkills.length then
      let skillMatches := extractedSkills.filter (fun skill =>
        let skillLower := toLower skill
        profileSkillsLower.any (fun pSkill => jsIncludes pSkill skillLower))
      score + ((skillMatches.length : ℚ) / (extractedSkills.length : ℚ)) * 40
    else score
  let score :=
    if 0 < extractedRequirements.length then
      let requirementMatches := extractedRequirements.filter (fun req =>
        let reqLower := toLower req
        jsIncludes profileTitleLower reqLower ||
        profileHighlightsLower.any (fun h => jsIncludes h reqLower) ||
        profileAIDomains.any (fun d => jsIncludes d reqLower) ||
        profileAIFrameworks.any (fun f => jsIncludes f reqLower))
      score +
        ((requirementMatches.length : ℚ) / (extractedRequirements.length : ℚ))
          * 30
    else score
  let score :=
    match derivedFilters.experience with
    | some fe =>
        if jsTruthyNum fe then
          let experienceDiff := |profile.experience - fe|
          if experienceDiff ≤ 2 then score + 20
          else if experienceDiff ≤ 4 then score + 15
          else if experienceDiff ≤ 6 then score + 10
          else if fe * (7 / 10) ≤ profile.experience then score + 5
          else score
        else score
    | none => score
  let score :=
    match derivedFilters.location with
    | some loc =>
        if jsTruthyStr loc then
          score + calculateLocationScore profile.location loc
        else score
    | none => score
  let score :=
    if score = 0 then score + calculateBaseQualityScore profile
    else score
  min 1 (max 0 (score / 100))

end TalentSearchV2

section BridgeLemmas

theorem jsIncludes_iff (s t : Str) : jsIncludes s t = true ↔ t <:+: s := by
  simp [jsIncludes]

theorem jsTruthyStr_iff (s : Str) : jsTruthyStr s = true ↔ s ≠ [] := by
  simp [jsTruthyStr]

theorem jsTruthyNum_iff (q : ℚ) : jsTruthyNum q = true ↔ q ≠ 0 := by
  simp [jsTruthyNum]

end BridgeLemmas

namespace SkillMatching

/-- Substring relation of the specification: one skill contains the other,
case-insensitively, in either direction. -/
def substringRelated (c r : Str) : Prop :=
  toLower r <:+: toLower c ∨ toLower c <:+: toLower r

/-- Synonym relation of the specification: the two skills appear together in
the fixed synonym map, one as the key and the other among its alternatives
(case-insensitively). -/
def synonymRelated (c r : Str) : Prop :=
  ∃ kv ∈ similarityMap,
    (toLower c = kv.1 ∧ toLower r ∈ kv.2) ∨
    (toLower r = kv.1 ∧ toLower c ∈ kv.2)

end SkillMatching

/-- C3: for every pair of skill strings, `calculateSkillSimilarity` returns
exactly one of 0, 70, 80, 100: 100 iff the two are case-insensitively
equal (in particular 100 on every non-empty string paired with itself),
80 iff not equal but one contains the other as a case-insensitive substring
in either direction, 70 iff neither of these two tiers applies and the pair
is related by the fixed synonym map, and 0 otherwise. -/
theorem claim_C3 (c r : Str) :
    (SkillMatching.calculateSkillSimilarity c r = 0 ∨
     SkillMatching.calculateSkillSimilarity c r = 70 ∨
     SkillMatching.calculateSkillSimilarity c r = 80 ∨
     SkillMatching.calculateSkillSimilarity c r = 100) ∧
    (SkillMatching.calculateSkillSimilarity c r = 100 ↔
      toLower c = toLower r) ∧
    (SkillMatching.calculateSkillSimilarity c r = 80 ↔
      toLower c ≠ toLower r ∧ SkillMatching.substringRelated c r) ∧
    (SkillMatching.calculateSkillSimilarity c r = 70 ↔
      toLower c ≠ toLower r ∧ ¬ SkillMatching.substringRelated c r ∧
        SkillMatching.synonymRelated c r) ∧
    (∀ x : Str, x ≠ [] → SkillMatching.calculateSkillSimilarity x x = 100) := by
  have hx : ∀ x : Str, SkillMatching.calculateSkillSimilarity x x = 100 := by
    intro x
    simp [SkillMatching.calculateSkillSimilarity]
  unfold SkillMatching.calculateSkillSimilarity
  simp only [Bool.or_eq_true, jsIncludes_iff]
  rw [show (SkillMatching.substringRelated c r ↔
      (toLower r <:+: toLower c ∨ toLower c <:+: toLower r)) from Iff.rfl]
  split_ifs with h1 h2 h3 <;>
    simp_all [SkillMatching.synonymRelated, hx]
  all_goals assumption

/-- Witness for C3 at a concrete input (the reflexivity clause at the
non-empty string "React"). -/
theorem claim_C3_witness :
    SkillMatching.calculateSkillSimilarity (str "React") (str "React") = 100 :=
  (claim_C3 (str "React") (str "React")).2.2.2.2 (str "React") (by decide)

namespace SkillMatching

/-- Leadership predicate of the specification: some experience has a
position containing "lead", "manager" or "principal", or a description
bullet containing "team" or "mentor", as case-insensitive substrings. -/
def hasLeadershipSpec (experiences : List WorkExperience) : Prop :=
  ∃ exp ∈ experiences,
    (str "lead") <:+: toLower exp.position ∨
    (str "manager") <:+: toLower exp.position ∨
    (str "principal") <:+: toLower exp.position ∨
    ∃ desc ∈ exp.description,
      (str "team") <:+: toLower desc ∨ (str "mentor") <:+: toLower desc

instance (experiences : List WorkExperience) :
    Decidable (hasLeadershipSpec experiences) := by
  unfold hasLeadershipSpec; infer_instance

end SkillMatching

/-- C4: `determineSeniority` implements the ordered bands `principal`
(years ≥ 8 with leadership), `lead` (years ≥ 6 with leadership), `senior`
(years ≥ 4), `mid` (years ≥ 2), else `junior`, where leadership is the
keyword scan over positions and description bullets; in particular at
9 years the tier is `principal` with leadership and `senior` without. -/
theorem claim_C4 (years : ℚ)
    (experiences : List SkillMatching.WorkExperience) :
    (SkillMatching.determineSeniority years experiences =
      if 8 ≤ years ∧ SkillMatching.hasLeadershipSpec experiences then
        SkillMatching.Seniority.principal
      else if 6 ≤ years ∧ SkillMatching.hasLeadershipSpec experiences then
        SkillMatching.Seniority.lead
      else if 4 ≤ years then SkillMatching.Seniority.senior
      else if 2 ≤ years then SkillMatching.Seniority.mid
      else SkillMatching.Seniority.junior) ∧
    (SkillMatching.hasLeadershipSpec experiences →
      SkillMatching.determineSeniority 9 experiences =
        SkillMatching.Seniority.principal) ∧
    (¬ SkillMatching.hasLeadershipSpec experiences →
      SkillMatching.determineSeniority 9 experiences =
        SkillMatching.Seniority.senior) := by
  have hbridge : ∀ exps : List SkillMatching.WorkExperience,
      (exps.any (fun exp =>
        jsIncludes (toLower exp.position) (str "lead") ||
        jsIncludes (toLower exp.position) (str "manager") ||
        jsIncludes (toLower exp.position) (str "principal") ||
        exp.description.any (fun desc =>
          jsIncludes (toLower desc) (str "team") ||
          jsIncludes (toLower desc) (str "mentor"))) = true) ↔
      SkillMatching.hasLeadershipSpec exps := by
    intro exps
    simp [SkillMatching.hasLeadershipSpec, List.any_eq_true, jsIncludes_iff,
      or_assoc]
  constructor
  · unfold SkillMatching.determineSeniority
    simp only [hbridge]
  constructor
  · intro hL
    unfold SkillMatching.determineSeniority
    rw [if_pos]
    exact ⟨by norm_num, (hbridge experiences).mpr hL⟩
  · intro hL
    unfold SkillMatching.determineSeniority
    rw [if_neg, if_neg, if_pos (by norm_num)]
    · exact fun h => hL ((hbridge experiences).mp h.2)
    · exact fun h => hL ((hbridge experiences).mp h.2)

/-- Witness for C4 at a concrete input: 9 years, one leadership experience
and an empty history. -/
theorem claim_C4_witness :
    SkillMatching.determineSeniority 9
      [{ company := str "x", position := str "Tech Lead",
         location := str "", startDate := str "", endDate := str "",
         current := false, description := [], technologies := [] }] =
      SkillMatching.Seniority.principal ∧
    SkillMatching.determineSeniority 9 [] =
      SkillMatching.Seniority.senior :=
  ⟨(claim_C4 9 _).2.1 (by decide), (claim_C4 9 []).2.2 (by decide)⟩

/-- C2: when the derived required-skill list is empty (for example the
requirement text contains no taxonomy token), `calculateSkillMatch` returns
`matchPercentage = 0` and `fitScore.technical = 100`; both are rational
values of the model by construction, so neither can be NaN or undefined. -/
theorem claim_C2 (skills : SkillMatching.SkillSet) (jobDescription : Str)
    (h : SkillMatching.extractSkillsFromJobDescription jobDescription = []) :
    (SkillMatching.calculateSkillMatch skills jobDescription).matchPercentage
        = 0 ∧
    (SkillMatching.calculateSkillMatch skills
        jobDescription).fitScore.technical = 100 := by
  unfold SkillMatching.calculateSkillMatch
  rw [h]
  norm_num [SkillMatching.calculateTechnicalFit, jsRound]

/-- Witness for C2: the empty skill set against the empty job description,
whose taxonomy scan yields no required skills. -/
theorem claim_C2_witness :
    (SkillMatching.calculateSkillMatch
        ⟨[], [], [], [], [], []⟩ []).matchPercentage = 0 ∧
    (SkillMatching.calculateSkillMatch
        ⟨[], [], [], [], [], []⟩ []).fitScore.technical = 100 :=
  claim_C2 ⟨[], [], [], [], [], []⟩ [] (by decide)

namespace SkillMatching

/-- If a candidate skill and a required skill contain one another as raw
substrings in either direction, `calculateSkillSimilarity` scores the pair
80 or 100: lowercasing preserves substring containment, so the pair lands
in the exact-match or containment tier. -/
theorem calculateSkillSimilarity_of_contains (c r : Str)
    (h : r <:+: c ∨ c <:+: r) :
    calculateSkillSimilarity c r = 80 ∨ calculateSkillSimilarity c r = 100 := by
  have hc : (jsIncludes (toLower c) (toLower r) ||
      jsIncludes (toLower r) (toLower c)) = true := by
    simp only [Bool.or_eq_true, jsIncludes_iff]
    rcases h with h | h
    · exact Or.inl (h.map Char.toLower)
    · exact Or.inr (h.map Char.toLower)
  simp only [calculateSkillSimilarity, hc]
  split_ifs <;> simp

end SkillMatching

/-- C10: every matched-skill record produced by `calculateSkillMatch`
carries a similarity of 80 or 100; the 70 synonym tier cannot appear,
because a candidate skill is selected only through substring containment
in either direction, which the similarity function scores at 80 or above. -/
theorem claim_C10 (skills : SkillMatching.SkillSet) (jobDescription : Str)
    (m : SkillMatching.MatchedSkill)
    (h : m ∈ (SkillMatching.calculateSkillMatch skills
        jobDescription).matchedSkills) :
    m.matchVal = 80 ∨ m.matchVal = 100 := by
  unfold SkillMatching.calculateSkillMatch at h
  simp only [List.mem_filterMap] at h
  obtain ⟨required, _hmem, heq⟩ := h
  set allResumeSkills :=
    (skills.technical ++ skills.frameworks ++ skills.languages ++
      skills.tools ++ skills.databases ++ skills.cloud).map toLower with hall
  rcases hfind : allResumeSkills.find? (fun resume =>
      jsIncludes resume required || jsIncludes required resume) with _ | found
  · rw [hfind] at heq
    exact absurd heq (by simp)
  · rw [hfind] at heq
    dsimp only at heq
    have hm := Option.some.inj heq
    have hpred := List.find?_some hfind
    simp only [Bool.or_eq_true, jsIncludes_iff] at hpred
    rw [← hm]
    exact SkillMatching.calculateSkillSimilarity_of_contains found required
      hpred

/-- Witness for C10 at a concrete input: candidate skill "react" against
the job description "react". -/
theorem claim_C10_witness :
    ({ skill := str "react", required := true,
       candidateLevel := str "Intermediate",
       requiredLevel := str "Required", matchVal := 100 } :
      SkillMatching.MatchedSkill).matchVal = 80 ∨
    ({ skill := str "react", required := true,
       candidateLevel := str "Intermediate",
       requiredLevel := str "Required", matchVal := 100 } :
      SkillMatching.MatchedSkill).matchVal = 100 :=
  claim_C10 ⟨[str "react"], [], [], [], [], []⟩ (str "react") _ (by decide)

namespace SkillMatching

/-- Month contribution of a single experience entry in the specification:
`max(0, (endYear − startYear) × 12 + (endMonth − startMonth))`, using the
current date as the end when `current = true`; an entry whose start or end
date fails to parse contributes 0 months. -/
def monthsOfExperience (parseDate : Str → Option JsDate) (now : JsDate)
    (exp : WorkExperience) : ℤ :=
  match parseDate exp.startDate,
      (if exp.current then some now else parseDate exp.endDate) with
  | some s, some e => max 0 ((e.year - s.year) * 12 + (e.month - s.month))
  | _, _ => 0

/-- Total-years formula of the specification: sum the per-entry month
contributions, divide by 12 and round to one decimal place. -/
def specTotalYears (parseDate : Str → Option JsDate) (now : JsDate)
    (experiences : List WorkExperience) : ℚ :=
  (jsRound ((((experiences.map
      (monthsOfExperience parseDate now)).sum : ℤ) : ℚ) / 12 * 10) : ℚ) / 10

theorem foldl_months_eq_sum (parseDate : Str → Option JsDate) (now : JsDate)
    (experiences : List WorkExperience) (init : ℤ) :
    experiences.foldl (fun totalMonths exp =>
      match parseDate exp.startDate,
          (if exp.current then some now else parseDate exp.endDate) with
      | some s, some e =>
          totalMonths + max 0 ((e.year - s.year) * 12 + (e.month - s.month))
      | _, _ => totalMonths) init =
    init + (experiences.map (monthsOfExperience parseDate now)).sum := by
  induction experiences generalizing init with
  | nil => simp
  | cons exp rest ih =>
      simp only [List.foldl_cons, List.map_cons, List.sum_cons]
      rw [ih]
      unfold monthsOfExperience
      rcases parseDate exp.startDate with _ | s <;>
        rcases h : (if exp.current then some now else parseDate exp.endDate)
          with _ | e <;> simp [h, add_assoc]

end SkillMatching

/-- C5: `calculateExperienceYears` equals the specification formula: the sum
over entries of `max(0, month span)` — with the current date as the end for
`current` entries and 0 for entries whose start or end date fails to
parse — divided by 12 and rounded to one decimal place.  The function is
total, so malformed dates can never raise. -/
theorem claim_C5 (parseDate : Str → Option SkillMatching.JsDate)
    (now : SkillMatching.JsDate)
    (experiences : List SkillMatching.WorkExperience) :
    SkillMatching.calculateExperienceYears parseDate now experiences =
      SkillMatching.specTotalYears parseDate now experiences := by
  unfold SkillMatching.calculateExperienceYears SkillMatching.specTotalYears
  split_ifs with h
  · rw [List.length_eq_zero] at h
    subst h
    norm_num [jsRound]
  · rw [SkillMatching.foldl_months_eq_sum]
    norm_num

theorem ite_nonneg_q (c : Prop) [Decidable c] (a b : ℚ) (ha : 0 ≤ a)
    (hb : 0 ≤ b) : 0 ≤ if c then a else b := by
  split <;> assumption

theorem length_pos_and_iff (s : Str) :
    (s ≠ [] ∧ 50 < s.length) ↔ 50 < s.length := by
  constructor
  · exact fun h => h.2
  · refine fun h => ⟨?_, h⟩
    rintro rfl
    simp at h

namespace ResumeParser

/-- Confidence rubric of the specification: `min(1, points/100)` where
points sum 5 each for non-empty name, email, phone and location,
`min(25, 2 × total skill count)`, 15 for a non-empty experience list plus
10 more if any entry has a description bullet, 10 for a non-empty education
list plus 5 more if any entry has both degree and institution, 10 for a
non-empty project list, and 5 for a summary longer than 50 characters. -/
def specConfidence (d : ParsedResumeData) : ℚ :=
  let personalPoints : ℚ :=
    (if d.personalInfo.name ≠ [] then 5 else 0) +
    (if d.personalInfo.email ≠ [] then 5 else 0) +
    (if d.personalInfo.phone ≠ [] then 5 else 0) +
    (if d.personalInfo.location ≠ [] then 5 else 0)
  let totalSkillCount : ℕ :=
    d.skills.technical.length + d.skills.frameworks.length +
    d.skills.languages.length + d.skills.tools.length +
    d.skills.databases.length + d.skills.cloud.length
  let skillPoints : ℚ := min 25 (2 * (totalSkillCount : ℚ))
  let experiencePoints : ℚ :=
    if d.experience ≠ [] then
      15 + (if ∃ exp ∈ d.experience, exp.description ≠ [] then 10 else 0)
    else 0
  let educationPoints : ℚ :=
    if d.education ≠ [] then
      10 + (if ∃ edu ∈ d.education,
          edu.degree ≠ [] ∧ edu.institution ≠ [] then 5 else 0)
    else 0
  let projectPoints : ℚ := if d.projects ≠ [] then 10 else 0
  let summaryPoints : ℚ := if 50 < d.summary.length then 5 else 0
  min 1 ((personalPoints + skillPoints + experiencePoints + educationPoints +
    projectPoints + summaryPoints) / 100)

end ResumeParser

/-- C6: `calculateConfidence` equals the specification's additive rubric
capped at 1, and the result always lies in the interval from 0 to 1. -/
theorem claim_C6 (d : ResumeParser.ParsedResumeData) (text : Str) :
    ResumeParser.calculateConfidence d text = ResumeParser.specConfidence d ∧
    0 ≤ ResumeParser.calculateConfidence d text ∧
    ResumeParser.calculateConfidence d text ≤ 1 := by
  have heq : ResumeParser.calculateConfidence d text =
      ResumeParser.specConfidence d := by
    unfold ResumeParser.calculateConfidence ResumeParser.specConfidence
    simp only [jsTruthyStr_iff, List.any_eq_true, Bool.and_eq_true,
      List.length_append, ne_eq, Nat.cast_add, List.length_pos,
      length_pos_and_iff, mul_comm, decide_eq_true_eq]
  refine ⟨heq, ?_, ?_⟩
  · rw [heq]
    unfold ResumeParser.specConfidence
    refine le_min (by norm_num) (div_nonneg ?_ (by norm_num))
    refine add_nonneg (add_nonneg (add_nonneg (add_nonneg (add_nonneg ?_ ?_)
      ?_) ?_) ?_) ?_
    · refine add_nonneg (add_nonneg (add_nonneg ?_ ?_) ?_) ?_ <;>
        exact ite_nonneg_q _ _ _ (by norm_num) (by norm_num)
    · exact le_min (by norm_num) (by positivity)
    · refine ite_nonneg_q _ _ _ ?_ (by norm_num)
      exact add_nonneg (by norm_num)
        (ite_nonneg_q _ _ _ (by norm_num) (by norm_num))
    · refine ite_nonneg_q _ _ _ ?_ (by norm_num)
      exact add_nonneg (by norm_num)
        (ite_nonneg_q _ _ _ (by norm_num) (by norm_num))
    · exact ite_nonneg_q _ _ _ (by norm_num) (by norm_num)
    · exact ite_nonneg_q _ _ _ (by norm_num) (by norm_num)
  · rw [heq]
    unfold ResumeParser.specConfidence
    exact min_le_left _ _

/-- C1: under JavaScript dynamic semantics, `calculateSkillMatch` only
supports the free-text requirement shape.  On a string it always returns a
`MatchResult` (with the required-skill list derived by the taxonomy scan),
but on an explicit array of requirement strings — the shape passed by
`analyzeSkillMatchFromFile` and by `test/resumeParserTest.ts` —
`extractSkillsFromJobDescription` calls `.toLowerCase()` on the array and
throws a `TypeError` (modelled as `none`), so no well-formed `MatchResult`
is produced for that requirement shape. -/
theorem claim_C1 :
    (∀ (skills : SkillMatching.SkillSet) (jobDescription : Str),
      SkillMatching.calculateSkillMatchDyn skills
          (SkillMatching.RequirementInput.text jobDescription) =
        some (SkillMatching.calculateSkillMatch skills jobDescription)) ∧
    SkillMatching.calculateSkillMatchDyn
        ⟨[str "React"], [], [], [], [], []⟩
        (SkillMatching.RequirementInput.array
          [str "React", str "Node.js", str "TypeScript"]) = none :=
  ⟨fun _ _ => rfl, rfl⟩

namespace ResumeParser

theorem dropWhile_eq_self_of_head (p : Char → Bool) (l : Str) (c : Char)
    (hc : l.head? = some c) (h : p c = false) : l.dropWhile p = l := by
  cases l with
  | nil => rfl
  | cons a t =>
      simp only [List.head?_cons, Option.some.injEq] at hc
      subst hc
      simp [List.dropWhile_cons, h]

theorem trim_eq_nil_of_dropWhile (body : Str)
    (h : body.dropWhile isJsWhitespace = []) : trim body = [] := by
  unfold trim
  rw [h]
  rfl

/-- Stripping the fences from a response of the exact shape the oracle
produces — a body wrapped in a ```json fence — returns the trimmed body. -/
theorem stripMarkdownCodeBlocks_fenced (body : Str) :
    stripMarkdownCodeBlocks (str "```json\n" ++ body ++ str "\n```") =
      trim body := by
  set w := str "```json\n" ++ body ++ str "\n```" with hw_def
  have hsplit : w = str "```" ++ (str "json" ++
      ('\n' :: (body ++ ('\n' :: str "```")))) := by
    rw [hw_def, show str "```json\n" = str "```" ++ str "json" ++ ['\n'] from
      by decide, show str "\n```" = '\n' :: str "```" from by decide]
    simp [List.append_assoc]
  have hsplit2 : w = (str "```json\n" ++ body ++ ('\n' :: str "``")) ++
      [Char.ofNat 96] := by
    rw [hw_def, show str "\n```" = ('\n' :: str "``") ++ [Char.ofNat 96] from
      by decide]
    simp [List.append_assoc]
  have hhead : w.head? = some (Char.ofNat 96) := by
    rw [hsplit, show str "```" = Char.ofNat 96 :: str "``" from by decide]
    rfl
  have hlast : w.reverse.head? = some (Char.ofNat 96) := by
    rw [List.head?_reverse, hsplit2, List.getLast?_concat]
  have htrim : trim w = w := by
    unfold trim
    rw [dropWhile_eq_self_of_head _ _ _ hhead (by decide),
      dropWhile_eq_self_of_head _ _ _ hlast (by decide),
      List.reverse_reverse]
  have hpre : (str "```").isPrefixOf w = true := by
    rw [List.isPrefixOf_iff_prefix, hsplit]
    exact List.prefix_append _ _
  have hdrop3 : w.drop 3 = str "json" ++
      ('\n' :: (body ++ ('\n' :: str "```"))) := by
    rw [hsplit, show (3 : ℕ) = (str "```").length from by decide,
      List.drop_left]
  have hjson : (str "json").isPrefixOf (str "json" ++
      ('\n' :: (body ++ ('\n' :: str "```")))) = true := by
    rw [List.isPrefixOf_iff_prefix]
    exact List.prefix_append _ _
  have hdrop4 : (str "json" ++
      ('\n' :: (body ++ ('\n' :: str "```")))).drop 4 =
      '\n' :: (body ++ ('\n' :: str "```")) := by
    rw [show (4 : ℕ) = (str "json").length from by decide, List.drop_left]
  unfold stripMarkdownCodeBlocks
  simp only [htrim, hpre, eq_self_iff_true, if_true, hdrop3, hjson, hdrop4,
    List.dropWhile_cons, show isJsWhitespace '\n' = true from rfl]
  rw [List.dropWhile_append]
  cases hb : (body.dropWhile isJsWhitespace).isEmpty with
  | true =>
      rw [if_pos rfl]
      rw [show (List.dropWhile isJsWhitespace ('\n' :: str "```")) =
        str "```" from by decide]
      rw [if_pos (show (List.isSuffixOf (str "```") (str "```")) = true from
        by decide)]
      rw [show List.take ((str "```").length - 3) (str "```") = ([] : Str) from
        by decide]
      rw [if_neg (show ¬ (([] : Str).getLast? = some '\n') from by decide)]
      rw [show trim ([] : Str) = [] from rfl]
      rw [List.isEmpty_iff] at hb
      exact (trim_eq_nil_of_dropWhile body hb).symm
  | false =>
      simp only [Bool.false_eq_true, if_false]
      set b := body.dropWhile isJsWhitespace with hb_def
      have hshape : b ++ ('\n' :: str "```") = (b ++ ['\n']) ++ str "```" := by
        simp
      have hsuf : (str "```").isSuffixOf (b ++ ('\n' :: str "```")) = true := by
        rw [List.isSuffixOf_iff_suffix, hshape]
        exact List.suffix_append _ _
      have htake : (b ++ ('\n' :: str "```")).take
          ((b ++ ('\n' :: str "```")).length - 3) = b ++ ['\n'] := by
        have hlen : (b ++ ('\n' :: str "```")).length - 3 =
            (b ++ ['\n']).length := by
          simp [str]
        rw [hlen, hshape, List.take_left]
      rw [if_pos hsuf, htake, if_pos (List.getLast?_concat b),
        List.dropLast_concat]
      unfold trim
      rw [hb_def, List.dropWhile_idempotent]

end ResumeParser

namespace ResumeParser

/-- When the trimmed response does not open with a three-backtick fence,
`stripMarkdownCodeBlocks` is just `trim`.  A response that is a valid JSON
value cannot open with a backtick, so this covers every valid unwrapped
response. -/
theorem stripMarkdownCodeBlocks_of_not_fenced (response : Str)
    (h : (str "```").isPrefixOf (trim response) = false) :
    stripMarkdownCodeBlocks response = trim response := by
  unfold stripMarkdownCodeBlocks
  simp [h]

end ResumeParser

/-- C8: `parseResumeWithAI` returns the schema-valid empty resume document
when the oracle throws and when the (fence-stripped) response fails to
parse as JSON, so the caller always receives a well-formed document; and a
response wrapped in ```json fences parses exactly as the unwrapped body
does whenever that body does not itself open with a fence — in particular
whenever it is a valid JSON value. -/
theorem claim_C8 :
    (∀ (jsonParse : Str → Option ResumeParser.ParsedResumeData) (e : Unit),
      ResumeParser.parseResumeWithAI jsonParse (Except.error e) =
        ResumeParser.emptyParsedResume) ∧
    (∀ (jsonParse : Str → Option ResumeParser.ParsedResumeData) (r : Str),
      jsonParse (ResumeParser.stripMarkdownCodeBlocks r) = none →
      ResumeParser.parseResumeWithAI jsonParse (Except.ok r) =
        ResumeParser.emptyParsedResume) ∧
    (∀ body : Str,
      ResumeParser.stripMarkdownCodeBlocks
          (str "```json\n" ++ body ++ str "\n```") =
        ResumeParser.trim body) ∧
    (∀ (jsonParse : Str → Option ResumeParser.ParsedResumeData) (body : Str),
      (str "```").isPrefixOf (ResumeParser.trim body) = false →
      ResumeParser.parseResumeWithAI jsonParse
          (Except.ok (str "```json\n" ++ body ++ str "\n```")) =
        ResumeParser.parseResumeWithAI jsonParse (Except.ok body)) := by
  refine ⟨fun _ _ => rfl, ?_, ResumeParser.stripMarkdownCodeBlocks_fenced, ?_⟩
  · intro jsonParse r h
    unfold ResumeParser.parseResumeWithAI
    dsimp only
    rw [h]
  · intro jsonParse body h
    unfold ResumeParser.parseResumeWithAI
    dsimp only
    rw [ResumeParser.stripMarkdownCodeBlocks_fenced,
      ResumeParser.stripMarkdownCodeBlocks_of_not_fenced body h]

/-- Witness for C8 at concrete inputs: an oracle whose response never
parses yields the empty document, and a fenced response over the JSON body
"[1, 2]" parses exactly as the unwrapped body. -/
theorem claim_C8_witness :
    ResumeParser.parseResumeWithAI (fun _ => none)
        (Except.ok (str "this is not json")) =
      ResumeParser.emptyParsedResume ∧
    ResumeParser.parseResumeWithAI (fun _ => none)
        (Except.ok (str "```json\n" ++ str "[1, 2]" ++ str "\n```")) =
      ResumeParser.parseResumeWithAI (fun _ => none)
        (Except.ok (str "[1, 2]")) :=
  ⟨claim_C8.2.1 (fun _ => none) (str "this is not json") rfl,
   claim_C8.2.2.2 (fun _ => none) (str "[1, 2]") (by decide)⟩

theorem ite_add_acc (c : Prop) [Decidable c] (s t : ℚ) :
    (if c then s + t else s) = s + (if c then t else 0) := by
  split <;> simp

theorem guard_ratio (es : List Str) (p : Str → Bool) (k : ℚ) :
    (if 0 < es.length then
        ((es.filter p).length : ℚ) / (es.length : ℚ) * k
      else 0) =
    ((es.filter p).length : ℚ) / (es.length : ℚ) * k := by
  split_ifs with h
  · rfl
  · have hnil : es = [] := by
      cases es with
      | nil => rfl
      | cons a t => simp at h
    subst hnil
    simp

namespace TalentSearchV1

open TalentSearch

/-- Experience tier of the claim: 20, 15 or 10 when the distance between
profile and required experience is at most 2, 4 or 6, else 5 when the
profile has at least 70 percent of the required experience, else 0. -/
def experienceTier (profileExperience fe : ℚ) : ℚ :=
  if |profileExperience - fe| ≤ 2 then 20
  else if |profileExperience - fe| ≤ 4 then 15
  else if |profileExperience - fe| ≤ 6 then 10
  else if fe * (7 / 10) ≤ profileExperience then 5
  else 0

/-- Location term of the claim: 10 on an exact (case-insensitive) match or
a city-alias match through the fixed location map, else 0. -/
def locationValue (profileLocation loc : Str) : ℚ :=
  if toLower profileLocation = toLower loc then 10
  else if locationMap.any (fun kv =>
      kv.2.contains (toLower loc) && kv.2.contains (toLower profileLocation))
  then 10
  else 0

/-- Base-quality score of the claim: 20 points for each of non-empty
skills, non-empty highlights, AI frameworks, AI domains, and positive
experience. -/
def baseQuality (profile : TalentProfileV1) : ℚ :=
  (if 0 < profile.skills.length then (20 : ℚ) else 0) +
  (if 0 < profile.highlights.length then 20 else 0) +
  (if 0 < profile.aiExperience.frameworks.length then 20 else 0) +
  (if 0 < profile.aiExperience.domains.length then 20 else 0) +
  (if 0 < profile.experience then 20 else 0)

/-- Skills term of the claim: matched skills over total extracted skills,
times 40 (an empty extracted-skill list contributes 0: division by zero is
0 in the rational model). -/
def skillsTerm (profile : TalentProfileV1) (extractedSkills : List Str) : ℚ :=
  ((extractedSkills.filter (fun skill =>
      profile.skills.any (fun pSkill =>
        jsIncludes (toLower pSkill) (toLower skill)))).length : ℚ) /
    (extractedSkills.length : ℚ) * 40

/-- Requirements term of the claim: matched requirements over total, times
30. -/
def requirementsTerm (profile : TalentProfileV1)
    (extractedRequirements : List Str) : ℚ :=
  ((extractedRequirements.filter (fun req =>
      let reqLower := toLower req
      jsIncludes (toLower profile.title) reqLower ||
      profile.highlights.any (fun h => jsIncludes (toLower h) reqLower) ||
      profile.aiExperience.domains.any (fun d =>
        jsIncludes (toLower d) reqLower) ||
      profile.aiExperience.frameworks.any (fun f =>
        jsIncludes (toLower f) reqLower))).length : ℚ) /
    (extractedRequirements.length : ℚ) * 30

/-- The match-score formula exactly as the claim states it: the experience
tier applies whenever the experience filter is present (no non-zero
proviso), and the location term whenever the location filter is present. -/
def claimMatchScore (profile : TalentProfileV1)
    (extractedSkills extractedRequirements : List Str)
    (derivedFilters : DerivedFilters) : ℚ :=
  let raw := skillsTerm profile extractedSkills +
    requirementsTerm profile extractedRequirements +
    (match derivedFilters.experience with
     | some fe => experienceTier profile.experience fe
     | none => 0) +
    (match derivedFilters.location with
     | some loc => locationValue profile.location loc
     | none => 0)
  let raw := if raw = 0 then baseQuality profile else raw
  min 1 (max 0 (raw / 100))

/-- The amended match-score formula: as the claim, except that the
experience tier applies only when the experience filter is present and
non-zero, and the location term only when the location filter is present
and non-empty (JavaScript truthiness of the guards). -/
def amendedMatchScore (profile : TalentProfileV1)
    (extractedSkills extractedRequirements : List Str)
    (derivedFilters : DerivedFilters) : ℚ :=
  let raw := skillsTerm profile extractedSkills +
    requirementsTerm profile extractedRequirements +
    (match derivedFilters.experience with
     | some fe => if fe ≠ 0 then experienceTier profile.experience fe else 0
     | none => 0) +
    (match derivedFilters.location with
     | some loc => if loc ≠ [] then locationValue profile.location loc else 0
     | none => 0)
  let raw := if raw = 0 then baseQuality profile else raw
  min 1 (max 0 (raw / 100))

theorem experienceTier_acc (s p fe : ℚ) :
    (if |p - fe| ≤ 2 then s + 20 else if |p - fe| ≤ 4 then s + 15
     else if |p - fe| ≤ 6 then s + 10 else if fe * (7 / 10) ≤ p then s + 5
     else s) = s + experienceTier p fe := by
  unfold experienceTier
  split_ifs <;> ring

theorem locationValue_acc (s : ℚ) (pl loc : Str) :
    (if toLower pl = toLower loc then s + 10
     else if locationMap.any (fun kv =>
        kv.2.contains (toLower loc) && kv.2.contains (toLower pl))
     then s + 10
     else s) = s + locationValue pl loc := by
  unfold locationValue
  split_ifs <;> ring

end TalentSearchV1

/-- Counterexample profile for C7: zero experience, no skills, highlights
or AI experience. -/
def c7Profile : TalentSearch.TalentProfileV1 :=
  { id := str "p1", name := str "", title := str "", experience := 0,
    skills := [], location := str "x",
    availability := TalentSearch.Availability.open_,
    source := TalentSearch.ProfileSource.github, matchScore := 0,
    highlights := [],
    aiExperience := { years := 0, frameworks := [], domains := [],
                      projects := [] },
    employmentPreferences := { type := TalentSearch.EmploymentType.fullTime,
                               remote := true, relocation := false },
    seniority := SkillMatching.Seniority.junior,
    screeningStatus := { automated := true, score := 0, notes := [],
                         recommended := false } }

/-- Counterexample filters for C7: a present but zero experience filter. -/
def c7Filters : TalentSearch.DerivedFilters :=
  { experience := some 0, skills := none, location := none,
    availability := none, employmentType := none, seniority := none,
    aiExperience := none }

/-- Counterexample for C7 as stated: with a present-but-zero experience
filter and a zero-experience profile, the claimed formula awards the
20-point closeness tier (raw 20, result 1/5), but the code skips the
experience term entirely — `derivedFilters?.experience` is falsy at 0 —
and, with raw 0 and an empty base-quality profile, returns 0. -/
theorem claim_C7_counterexample :
    TalentSearchV1.calculateMatchScore c7Profile [str "zz"] [str "qq"]
        c7Filters = 0 ∧
    TalentSearchV1.claimMatchScore c7Profile [str "zz"] [str "qq"]
        c7Filters = 1 / 5 := by
  have hinf : ¬ (toLower ['q', 'q'] <:+: toLower ([] : Str)) := by decide
  constructor
  · norm_num [TalentSearchV1.calculateMatchScore, c7Profile, c7Filters,
      jsTruthyNum, jsIncludes, str, hinf, List.filter_cons, min_def, max_def]
  · norm_num [TalentSearchV1.claimMatchScore, c7Profile, c7Filters,
      TalentSearchV1.skillsTerm, TalentSearchV1.requirementsTerm,
      TalentSearchV1.experienceTier, TalentSearchV1.baseQuality,
      jsIncludes, str, hinf, List.filter_cons, min_def, max_def]

/-- C7 (amended): `calculateMatchScore` equals the claimed formula with the
experience tier applying only when the experience filter is present and
non-zero and the location term only when the location filter is present
and non-empty (the code guards both behind JavaScript truthiness); and the
returned value always lies in the interval from 0 to 1. -/
theorem claim_C7 (profile : TalentSearch.TalentProfileV1)
    (extractedSkills extractedRequirements : List Str)
    (f : TalentSearch.DerivedFilters) :
    TalentSearchV1.calculateMatchScore profile extractedSkills
        extractedRequirements f =
      TalentSearchV1.amendedMatchScore profile extractedSkills
        extractedRequirements f ∧
    0 ≤ TalentSearchV1.calculateMatchScore profile extractedSkills
        extractedRequirements f ∧
    TalentSearchV1.calculateMatchScore profile extractedSkills
        extractedRequirements f ≤ 1 := by
  refine ⟨?_, ?_, ?_⟩
  · unfold TalentSearchV1.calculateMatchScore TalentSearchV1.amendedMatchScore
    obtain ⟨fexp, fsk, floc, fav, femp, fsen, fai⟩ := f
    rcases fexp with _ | fe <;> rcases floc with _ | loc <;> dsimp only
    · simp only [ite_add_acc, zero_add, guard_ratio, TalentSearchV1.baseQuality,
        TalentSearchV1.skillsTerm, TalentSearchV1.requirementsTerm, add_zero]
    · rw [TalentSearchV1.locationValue_acc]
      simp only [ite_add_acc, zero_add, guard_ratio, jsTruthyStr_iff,
        TalentSearchV1.baseQuality, TalentSearchV1.skillsTerm,
        TalentSearchV1.requirementsTerm, add_zero]
    · rw [TalentSearchV1.experienceTier_acc]
      simp only [ite_add_acc, zero_add, guard_ratio, jsTruthyNum_iff,
        TalentSearchV1.baseQuality, TalentSearchV1.skillsTerm,
        TalentSearchV1.requirementsTerm, add_zero]
    · rw [TalentSearchV1.experienceTier_acc, TalentSearchV1.locationValue_acc]
      simp only [ite_add_acc, zero_add, guard_ratio, jsTruthyNum_iff,
        jsTruthyStr_iff, TalentSearchV1.baseQuality,
        TalentSearchV1.skillsTerm, TalentSearchV1.requirementsTerm, add_zero]
  · exact le_min (by norm_num) (le_max_left 0 _)
  · exact min_le_left _ _

namespace TalentSearchV2

open TalentSearch

theorem calculateLocationScore_acc (s : ℚ) (pl loc : Str) :
    (if toLower pl = toLower loc then s + 10
     else if locationMap.any (fun kv =>
        kv.2.contains (toLower loc) && kv.2.contains (toLower pl))
     then s + 10
     else s) = s + calculateLocationScore pl loc := by
  unfold calculateLocationScore
  split_ifs <;> simp_all
  all_goals assumption

theorem base_branch (S B : ℚ) :
    (if S = 0 then S + B else S) = (if S = 0 then B else S) := by
  split_ifs with h <;> simp [h]

theorem calculateBaseQualityScore_eq (profile : TalentProfile) :
    calculateBaseQualityScore profile =
      (if 0 < profile.skills.length then (20 : ℚ) else 0) +
      (if 0 < profile.highlights.length then 20 else 0) +
      (if 0 < (match profile.aiExperience with
               | some ai => ai.frameworks.length
               | none => 0) then 20 else 0) +
      (if 0 < (match profile.aiExperience with
               | some ai => ai.domains.length
               | none => 0) then 20 else 0) +
      (if 0 < profile.experience then 20 else 0) := by
  unfold calculateBaseQualityScore
  simp only [ite_add_acc, zero_add]

end TalentSearchV2

/-- C9: the optimised scorer `calculateMatchScoreOptimized` returns exactly
the same value as the naive `calculateMatchScore` of the same class on
every input: pre-lowercasing commutes with the membership scans, and the
location and base-quality helpers compute the inlined terms. -/
theorem claim_C9 (profile : TalentSearch.TalentProfile)
    (extractedSkills extractedRequirements : List Str)
    (f : TalentSearch.DerivedFilters) :
    TalentSearchV2.calculateMatchScoreOptimized profile extractedSkills
        extractedRequirements f =
      TalentSearchV2.calculateMatchScore profile extractedSkills
        extractedRequirements f := by
  unfold TalentSearchV2.calculateMatchScoreOptimized
    TalentSearchV2.calculateMatchScore
  obtain ⟨pid, pname, ptitle, pexp, pskills, ploc, pav, psrc, pms, phl,
    pavat, psumm, pai, pemp, psen, pscr⟩ := profile
  obtain ⟨fexp, fsk, floc, fav, femp, fsen, fai⟩ := f
  rcases pai with _ | ai <;> rcases floc with _ | loc <;> dsimp only <;>
    simp only [List.any_map, Function.comp_def, List.any_nil,
      TalentSearchV2.calculateBaseQualityScore_eq,
      ← TalentSearchV2.calculateLocationScore_acc,
      TalentSearchV2.base_branch]
